import Mathlib

/-!
Verification development for the privacy-cash-sdk client
(shallow embedding of src/src/indexV2.ts, src/dist/index.js and
src/utils/constants.ts, with missing implementation files modelled
from the written specification where noted).
-/

/-! Protocol constants, transcribed from utils/constants.ts
(src/unnamed/part_002, lines 71-81). -/

def FETCH_UTXOS_GROUP_SIZE : Nat := 10000

def TRANSACT_IX_DISCRIMINATOR : List Nat :=
  [217, 149, 130, 143, 221, 52, 252, 119]

def TRANSACT_SPL_IX_DISCRIMINATOR : List Nat :=
  [154, 66, 244, 204, 78, 225, 163, 151]

def MERKLE_TREE_DEPTH : Nat := 26

def LSK_FETCH_OFFSET : String := "fetch_offset"

def LSK_ENCRYPTED_OUTPUTS : String := "encrypted_outputs"

/-! Base58 decoding, the semantics of the bs58 library used by
dist/index.js (bs58.decode) and of the PublicKey base58 constructor of
the solana web3 library: Bitcoin alphabet, big-endian base-58 value,
one leading zero byte per leading alphabet-first character. -/

def base58Alphabet : List Char :=
  "123456789ABCDEFGHJKLMNPQRSTUVWXYZabcdefghijkmnopqrstuvwxyz".data

def charIndexFrom (c : Char) : List Char → Nat → Option Nat
  | [], _ => none
  | d :: ds, i => if d = c then some i else charIndexFrom c ds (i + 1)

def base58Index (c : Char) : Option Nat :=
  charIndexFrom c base58Alphabet 0

def base58ValueAux (acc : Nat) : List Char → Option Nat
  | [] => some acc
  | c :: cs =>
    match base58Index c with
    | none => none
    | some d => base58ValueAux (acc * 58 + d) cs

def countLeadingOnes : List Char → Nat
  | [] => 0
  | c :: cs => if c = '1' then countLeadingOnes cs + 1 else 0

/-- Big-endian byte expansion of a natural number, fuel-indexed so that it
is structurally recursive and evaluates inside the kernel; the fuel is the
number itself, which bounds the number of base-256 digits. -/
def natToBytesBEAux : Nat → Nat → List Nat
  | 0, _ => []
  | fuel + 1, n =>
    if n = 0 then [] else natToBytesBEAux fuel (n / 256) ++ [n % 256]

def natToBytesBE (n : Nat) : List Nat :=
  natToBytesBEAux n n

def bs58decode (s : String) : Option (List Nat) :=
  match base58ValueAux 0 s.data with
  | none => none
  | some v =>
    some (List.replicate (countLeadingOnes s.data) 0 ++ natToBytesBE v)

/-- A solana public key, modelled as its 32 raw bytes. -/
abbrev Pubkey := List Nat

/-- The PublicKey base58-string constructor of the solana web3 library:
decodes the string and requires exactly 32 bytes, otherwise it throws
(modelled as none). -/
def newPublicKey (s : String) : Option Pubkey :=
  match bs58decode s with
  | none => none
  | some bs => if bs.length = 32 then some bs else none

def pkAllZero : Pubkey := List.replicate 32 0

/-! Operation result shapes, transcribed from the declared return types in
src/src/indexV2.ts. The tx field of each result is the submitted
transaction signature, produced by the out-of-scope RPC collaborator; it
is kept as an uninterpreted string. -/

structure DepositTxResult where
  tx : String
deriving DecidableEq

/-- Result of depositV2 (indexV2.ts lines 280-285), without the tx
signature string, which is produced by the external RPC collaborator.
The feeRecipient is kept as the key itself rather than its base58
rendering. -/
structure DepositV2Result where
  depositLamports : Int
  feeLamports : Int
  feeRecipient : Pubkey
deriving DecidableEq

/-- Result of depositSPLV2 (indexV2.ts lines 525-530), same conventions
as DepositV2Result. -/
structure DepositSPLV2Result where
  depositBaseUnits : Int
  feeBaseUnits : Int
  feeRecipient : Pubkey
deriving DecidableEq

/-- Result of withdraw (indexV2.ts lines 357-363). The source field
named is-Partial is rendered partialWithdraw here; the recipient is kept
as the key itself. -/
structure WithdrawResult where
  partialWithdraw : Bool
  recipient : Pubkey
  amount_in_lamports : Int
  fee_in_lamports : Int
deriving DecidableEq

/-- Result of withdrawSPL (indexV2.ts lines 608-614). -/
structure WithdrawSPLResult where
  partialWithdraw : Bool
  recipient : Pubkey
  base_units : Int
  fee_base_units : Int
deriving DecidableEq

/-- Result of getPrivateBalance (indexV2.ts line 412). -/
structure SolBalanceResult where
  lamports : Int
deriving DecidableEq

/-- Result of getPrivateBalanceSPL (indexV2.ts lines 669-671): the
declared return type carries BOTH a base_units field and a lamports
field. -/
structure SplBalanceResult where
  base_units : Int
  lamports : Int
deriving DecidableEq

/-- Field-name list of the resolved getPrivateBalance object, read off
the return type annotation at indexV2.ts line 412. -/
def getPrivateBalanceResultFields : List String := ["lamports"]

/-- Field-name list of the resolved getPrivateBalanceSPL object, read
off the return type annotation at indexV2.ts lines 669-671. -/
def getPrivateBalanceSPLResultFields : List String :=
  ["base_units", "lamports"]

/-! The PrivacyCashV2 running-flag state machine (indexV2.ts).
Every public operation executes: set isRunning to true, run the inner
body (which awaits external collaborators and may reject), and in a
finally block set isRunning to false. The inner body is embedded as its
outcome, an Except value, since JS try/finally runs the finally block
and propagates the body outcome on both the fulfil and the reject path. -/

inductive SdkError where
  | failure (msg : String)
deriving DecidableEq

/-- Client state of a PrivacyCashV2 instance. isRunning mirrors the
optional boolean field declared at indexV2.ts line 80. mutationsBegun is
a ghost instrumentation field of the embedding, not a field of the TS
object: it counts how many mutating-operation bodies (inner
deposit/withdraw calls) have been entered, so that whether a mutation
begins is observable in the state. -/
structure ClientState where
  isRunning : Option Bool
  mutationsBegun : Nat
deriving DecidableEq

def initialClientState : ClientState := { isRunning := some false, mutationsBegun := 0 }

/-- isOperationRunning (indexV2.ts lines 699-701): returns the flag,
defaulting to false when the optional field is unset. -/
def PrivacyCashV2.isOperationRunning (st : ClientState) : Bool :=
  st.isRunning.getD false

/-- The common shape of every mutating operation of PrivacyCashV2
(deposit lines 207-242, depositV2 270-330, depositSPL 446-484,
depositSPLV2 513-578, withdraw 351-399, withdrawSPL 600-655): set the
flag, enter the mutating body unconditionally (there is no check of the
flag before entry), and clear the flag in the finally block whatever the
body outcome is. -/
def runMutatingOp {A : Type} (body : Except SdkError A) (st : ClientState) :
    Except SdkError A × ClientState :=
  let started : ClientState := { st with isRunning := some true }
  let begun : ClientState := { started with mutationsBegun := started.mutationsBegun + 1 }
  (body, { begun with isRunning := some false })

/-- The common shape of the two balance queries (getPrivateBalance
lines 412-427, getPrivateBalanceSPL 669-687): same flag discipline, but
the body only reads. -/
def runReadOp {A : Type} (body : Except SdkError A) (st : ClientState) :
    Except SdkError A × ClientState :=
  let started : ClientState := { st with isRunning := some true }
  (body, { started with isRunning := some false })

def PrivacyCashV2.depositOp (body : Except SdkError DepositTxResult) :
    ClientState → Except SdkError DepositTxResult × ClientState :=
  runMutatingOp body

def PrivacyCashV2.depositV2Op (body : Except SdkError DepositV2Result) :
    ClientState → Except SdkError DepositV2Result × ClientState :=
  runMutatingOp body

def PrivacyCashV2.depositSPLOp (body : Except SdkError DepositTxResult) :
    ClientState → Except SdkError DepositTxResult × ClientState :=
  runMutatingOp body

def PrivacyCashV2.depositSPLV2Op (body : Except SdkError DepositSPLV2Result) :
    ClientState → Except SdkError DepositSPLV2Result × ClientState :=
  runMutatingOp body

def PrivacyCashV2.withdrawOp (body : Except SdkError WithdrawResult) :
    ClientState → Except SdkError WithdrawResult × ClientState :=
  runMutatingOp body

def PrivacyCashV2.withdrawSPLOp (body : Except SdkError WithdrawSPLResult) :
    ClientState → Except SdkError WithdrawSPLResult × ClientState :=
  runMutatingOp body

def PrivacyCashV2.getPrivateBalanceOp (body : Except SdkError SolBalanceResult) :
    ClientState → Except SdkError SolBalanceResult × ClientState :=
  runReadOp body

def PrivacyCashV2.getPrivateBalanceSPLOp (body : Except SdkError SplBalanceResult) :
    ClientState → Except SdkError SplBalanceResult × ClientState :=
  runReadOp body

/-! Fee-recipient normalization and the deposit-with-fee data path. -/

/-- The duck-typed feeRecipient argument of depositV2 and depositSPLV2
(string or PublicKey), indexV2.ts lines 278 and 522. -/
inductive FeeRecipientParam where
  | str (s : String)
  | pk (p : Pubkey)

/-- Boundary normalization performed identically by depositV2
(indexV2.ts lines 291-294) and depositSPLV2 (lines 536-539): a string is
decoded through the PublicKey constructor (which can throw, modelled as
none), a PublicKey is passed through unchanged. -/
def normalizeFeeRecipient : FeeRecipientParam → Option Pubkey
  | .str s => newPublicKey s
  | .pk p => some p

/-- Modelled from the spec: the depositV2 implementation in deposit.ts
is not under src (only its declaration, src/dist/deposit.d.ts). Per the
spec (deposit-with-fee result carries tx, depositAmount, feeAmount,
feeRecipient; the actual deposit is the total minus the fee) and the
declaration's doc comment (the actual deposit will be totalLamports
minus feeLamports), the inner call splits the total into a deposit of
totalLamports - feeLamports and a fee transfer of feeLamports to the
fee recipient, and reports exactly that split in its result. -/
def depositV2Inner (totalLamports feeLamports : Int) (feeRecipient : Pubkey) :
    DepositV2Result :=
  { depositLamports := totalLamports - feeLamports
    feeLamports := feeLamports
    feeRecipient := feeRecipient }

/-- Modelled from the spec: the depositSPLV2 implementation in
depositSPL.ts is not under src (only its declaration,
src/unnamed/part_001). Same split as depositV2Inner, in token base
units: the actual deposit is totalBaseUnits - feeBaseUnits and the fee
transfer is feeBaseUnits. -/
def depositSPLV2Inner (totalBaseUnits feeBaseUnits : Int) (feeRecipient : Pubkey) :
    DepositSPLV2Result :=
  { depositBaseUnits := totalBaseUnits - feeBaseUnits
    feeBaseUnits := feeBaseUnits
    feeRecipient := feeRecipient }

/-- depositV2 of PrivacyCashV2 (indexV2.ts lines 270-330), as the data
path from arguments to result: normalize the fee recipient at the
boundary (a bad string makes the PublicKey constructor throw, rejecting
the call), call the inner deposit function, and pass its result
through. -/
def PrivacyCashV2.depositV2run (totalLamports feeLamports : Int)
    (feeRecipient : FeeRecipientParam) : Option DepositV2Result :=
  match normalizeFeeRecipient feeRecipient with
  | none => none
  | some p => some (depositV2Inner totalLamports feeLamports p)

/-- depositSPLV2 of PrivacyCashV2 (indexV2.ts lines 513-578), same data
path as depositV2run in token base units. -/
def PrivacyCashV2.depositSPLV2run (totalBaseUnits feeBaseUnits : Int)
    (feeRecipient : FeeRecipientParam) : Option DepositSPLV2Result :=
  match normalizeFeeRecipient feeRecipient with
  | none => none
  | some p => some (depositSPLV2Inner totalBaseUnits feeBaseUnits p)

/-! Withdraw recipient selection. -/

/-- Recipient selection of withdraw (indexV2.ts lines 369-371) and
withdrawSPL (lines 620-622): a JS conditional on the optional string, so
an absent OR empty (falsy) recipientAddress selects the client's own
public key, and a non-empty string goes through the PublicKey
constructor, which can throw (none). -/
def selectWithdrawRecipient (ownPk : Pubkey) (recipientAddress : Option String) :
    Option Pubkey :=
  match recipientAddress with
  | none => some ownPk
  | some s => if s = "" then some ownPk else newPublicKey s

/-- Modelled from the spec: the withdraw implementation in withdraw.ts
is not under src (only callers and declarations are). Per the spec's
result shape for withdraw (a partial-withdrawal flag, tx, recipient,
amount, fee) the result reports the recipient the withdrawal used; the
partial-withdrawal flag, amount and fee are computed by the missing
SpendPlanner and are abstracted as parameters here. -/
def withdrawInner (recipient : Pubkey) (pw : Bool) (amount fee : Int) :
    WithdrawResult :=
  { partialWithdraw := pw
    recipient := recipient
    amount_in_lamports := amount
    fee_in_lamports := fee }

/-- Modelled from the spec: the withdrawSPL implementation in
withdrawSPL.ts is not under src (only its declaration,
src/dist/deposit.d.ts second segment). Same conventions as
withdrawInner, in token base units. -/
def withdrawSPLInner (recipient : Pubkey) (pw : Bool) (amount fee : Int) :
    WithdrawSPLResult :=
  { partialWithdraw := pw
    recipient := recipient
    base_units := amount
    fee_base_units := fee }

/-- withdraw of PrivacyCashV2 (indexV2.ts lines 351-399) as the data
path from arguments to result: select the recipient, call the inner
withdraw with it, pass the result through. -/
def PrivacyCashV2.withdrawRun (ownPk : Pubkey) (recipientAddress : Option String)
    (pw : Bool) (amount fee : Int) : Option WithdrawResult :=
  match selectWithdrawRecipient ownPk recipientAddress with
  | none => none
  | some r => some (withdrawInner r pw amount fee)

/-- withdrawSPL of PrivacyCashV2 (indexV2.ts lines 600-655) as the data
path from arguments to result. -/
def PrivacyCashV2.withdrawSPLRun (ownPk : Pubkey) (recipientAddress : Option String)
    (pw : Bool) (amount fee : Int) : Option WithdrawSPLResult :=
  match selectWithdrawRecipient ownPk recipientAddress with
  | none => none
  | some r => some (withdrawSPLInner r pw amount fee)

/-! The local-storage cache and the clearCache operations. -/

/-- The cache collaborator state: a key-value map from string keys to
string values, as the node-localstorage Storage object used at
indexV2.ts line 31. -/
def Store : Type := String → Option String

/-- Storage.removeItem: deletes the entry at the given key and nothing
else. -/
def removeItem (key : String) (st : Store) : Store :=
  fun k => if k = key then none else st k

/-- Modelled from the spec: localstorageKey is exported by getUtxos.ts,
which is not under src. Per the spec's cache-collaborator key format
(purpose, then the owner address, colon separated) it renders the owner
address as the per-owner key suffix appended to the purpose constant. -/
def localstorageKey (ownerAddress : String) : String :=
  ":" ++ ownerAddress

/-- Modelled from the spec: localstorageKeySPL is exported by
getUtxosSPL.ts, which is not under src. Same key format, applied to the
owner's associated token address for the mint. -/
def localstorageKeySPL (ownerAta : String) : String :=
  ":" ++ ownerAta

/-- clearCache of PrivacyCashV2 (indexV2.ts lines 158-165): removes the
fetch-offset entry and the encrypted-outputs entry keyed by the owner's
public key. The publicKey field is always set on a constructed
instance, so the early return guarding a missing key is not taken. -/
def PrivacyCashV2.clearCache (ownerAddress : String) (st : Store) : Store :=
  removeItem (LSK_ENCRYPTED_OUTPUTS ++ localstorageKey ownerAddress)
    (removeItem (LSK_FETCH_OFFSET ++ localstorageKey ownerAddress) st)

/-- clearCacheSPL of PrivacyCashV2 (indexV2.ts lines 178-191): removes
the two entries keyed by the owner's associated token address for the
mint. The associated token address is computed by the external
spl-token library and enters the model as the ownerAta argument. -/
def PrivacyCashV2.clearCacheSPL (ownerAta : String) (st : Store) : Store :=
  removeItem (LSK_ENCRYPTED_OUTPUTS ++ localstorageKeySPL ownerAta)
    (removeItem (LSK_FETCH_OFFSET ++ localstorageKeySPL ownerAta) st)

/-! The PrivacyCash (V1) constructor and its owner parameter
(src/dist/index.js lines 22-27 and 149-173). -/

/-- A solana keypair, modelled by the secret-key bytes it was built
from. The external web3 library derives the signing key and public key
from these bytes; only the bytes matter to the constructor logic under
verification. -/
structure Keypair where
  secretKey : List Nat
deriving DecidableEq

/-- Keypair.fromSecretKey of the external web3 library: it throws
unless given exactly 64 bytes whose trailing 32 bytes equal the Ed25519
public key derived from the leading 32 bytes. The derivation itself is
the external library's cryptography, abstracted here as the ed
argument (mapping a 32-byte seed to its 32-byte public key); a throw
is modelled as none. In particular every 32-byte input throws. -/
def Keypair.fromSecretKey (ed : List Nat → List Nat) (bs : List Nat) :
    Option Keypair :=
  if bs.length = 64 ∧ bs.drop 32 = ed (bs.take 32) then
    some { secretKey := bs }
  else none

/-- The owner parameter of the PrivacyCash constructor
(dist/deposit.d.ts third segment, line 95): a base58 string, a plain
number array, a byte array, or a Keypair. -/
inductive OwnerParam where
  | keypair (kp : Keypair)
  | bytes (bs : List Nat)
  | numArray (ns : List Int)
  | str (s : String)

/-- The length check of getSolanaKeypair (dist/index.js lines 165-168)
followed by the library call (line 168), both inside the surrounding
try: only arrays of exactly 32 or 64 bytes reach Keypair.fromSecretKey,
whose throw the catch turns into null; anything else yields null
directly. Since the library accepts only valid 64-byte secret keys, the
32-byte branch of the source's length check never produces a keypair. -/
def lengthCheckedKeypair (ed : List Nat → List Nat) (bs : List Nat) :
    Option Keypair :=
  if bs.length = 32 ∨ bs.length = 64 then Keypair.fromSecretKey ed bs else none

/-- getSolanaKeypair (dist/index.js lines 149-173): a Keypair is
returned unchanged; a string is base58-decoded (a decoding throw is
caught, yielding null); a byte array is used directly; a number array
is coerced entrywise to bytes modulo 256 (the JS Uint8Array.from
conversion); then the length check and the library call apply. -/
def getSolanaKeypair (ed : List Nat → List Nat) : OwnerParam → Option Keypair
  | .keypair kp => some kp
  | .str s =>
    match bs58decode s with
    | none => none
    | some keyArray => lengthCheckedKeypair ed keyArray
  | .bytes bs => lengthCheckedKeypair ed bs
  | .numArray ns => lengthCheckedKeypair ed (ns.map (fun n => (n % 256).toNat))

/-- The error message thrown by the PrivacyCash constructor for an
invalid owner (dist/index.js line 25). -/
def ownerErrorMessage : String :=
  "param \"owner\" is not a valid Private Key or Keypair"

/-- The owner-validation part of the PrivacyCash constructor
(dist/index.js lines 22-27): a null from getSolanaKeypair becomes a
thrown error with the fixed message, otherwise the keypair is kept. -/
def PrivacyCash.constructorKeypair (ed : List Nat → List Nat)
    (owner : OwnerParam) : Except String Keypair :=
  match getSolanaKeypair ed owner with
  | none => Except.error ownerErrorMessage
  | some kp => Except.ok kp

/-- A concrete function standing in for the external Ed25519 public-key
derivation when the model is evaluated at concrete inputs. The
claim-level theorem below quantifies over every derivation function,
and the counterexample only exercises the length check, which rejects
independently of the derivation, so nothing depends on this choice. -/
def ed25519Example : List Nat → List Nat := fun seed => seed

/-! Theorems settling the claims. -/

/-- C5: the ledger scan fetches encrypted output records in fixed-size
batches: the batch-size constant used for fetching UTXO groups equals
10,000. -/
theorem C5_fetch_batch_size : FETCH_UTXOS_GROUP_SIZE = 10000 := rfl

/-- C6: the native transact discriminator and the SPL transact
discriminator are each exactly 8 bytes long and the two constants are
distinct. -/
theorem C6_discriminators_eight_bytes_distinct :
    TRANSACT_IX_DISCRIMINATOR.length = 8
  ∧ TRANSACT_SPL_IX_DISCRIMINATOR.length = 8
  ∧ TRANSACT_IX_DISCRIMINATOR ≠ TRANSACT_SPL_IX_DISCRIMINATOR := by
  decide

/-- C3, counterexample: the claim that getPrivateBalance and
getPrivateBalanceSPL resolve to one and the same single-amount shape is
false: the getPrivateBalanceSPL result object has two fields, not one,
and its field list differs from the getPrivateBalance one. -/
theorem C3_single_amount_shape_counterexample :
    ¬ (getPrivateBalanceSPLResultFields.length = 1
       ∧ getPrivateBalanceSPLResultFields = getPrivateBalanceResultFields) := by
  decide

/-- C3, amended: getPrivateBalance resolves to an object with exactly
one amount field, lamports; getPrivateBalanceSPL resolves to an object
with two amount fields, base_units and lamports; the two result shapes
are therefore not the same single-amount shape. -/
theorem C3_balance_result_shapes :
    getPrivateBalanceResultFields.length = 1
  ∧ getPrivateBalanceResultFields = ["lamports"]
  ∧ getPrivateBalanceSPLResultFields.length = 2
  ∧ getPrivateBalanceSPLResultFields = ["base_units", "lamports"]
  ∧ getPrivateBalanceResultFields ≠ getPrivateBalanceSPLResultFields := by
  decide

/-- C2, counterexample: the claim that starting a second mutating
operation while one is in flight does not begin a concurrent second
mutation is false: from a state where isOperationRunning is true and
one mutation has begun, a deposit call still enters its mutating body,
raising the count of begun mutations to 2 instead of leaving it at 1. -/
theorem C2_guard_counterexample :
    PrivacyCashV2.isOperationRunning { isRunning := some true, mutationsBegun := 1 } = true
  ∧ ¬ ((PrivacyCashV2.depositOp (Except.ok { tx := "t2" })
        { isRunning := some true, mutationsBegun := 1 }).2.mutationsBegun = 1) := by
  decide

/-- C2, amended: the isRunning flag of PrivacyCashV2 records that an
operation is in flight and isOperationRunning reports it, but it is
never consulted before starting an operation: every mutating operation
(deposit, depositV2, depositSPL, depositSPLV2, withdraw, withdrawSPL)
started while isOperationRunning() returns true still begins its
mutating body and runs it to its own outcome, so a concurrent second
mutation is not prevented. -/
theorem C2_no_concurrency_guard :
    ∀ st : ClientState, PrivacyCashV2.isOperationRunning st = true →
      (∀ b : Except SdkError DepositTxResult,
          (PrivacyCashV2.depositOp b st).2.mutationsBegun = st.mutationsBegun + 1
        ∧ (PrivacyCashV2.depositOp b st).1 = b)
    ∧ (∀ b : Except SdkError DepositV2Result,
          (PrivacyCashV2.depositV2Op b st).2.mutationsBegun = st.mutationsBegun + 1
        ∧ (PrivacyCashV2.depositV2Op b st).1 = b)
    ∧ (∀ b : Except SdkError DepositTxResult,
          (PrivacyCashV2.depositSPLOp b st).2.mutationsBegun = st.mutationsBegun + 1
        ∧ (PrivacyCashV2.depositSPLOp b st).1 = b)
    ∧ (∀ b : Except SdkError DepositSPLV2Result,
          (PrivacyCashV2.depositSPLV2Op b st).2.mutationsBegun = st.mutationsBegun + 1
        ∧ (PrivacyCashV2.depositSPLV2Op b st).1 = b)
    ∧ (∀ b : Except SdkError WithdrawResult,
          (PrivacyCashV2.withdrawOp b st).2.mutationsBegun = st.mutationsBegun + 1
        ∧ (PrivacyCashV2.withdrawOp b st).1 = b)
    ∧ (∀ b : Except SdkError WithdrawSPLResult,
          (PrivacyCashV2.withdrawSPLOp b st).2.mutationsBegun = st.mutationsBegun + 1
        ∧ (PrivacyCashV2.withdrawSPLOp b st).1 = b) := by
  intro st h
  exact ⟨fun b => ⟨rfl, rfl⟩, fun b => ⟨rfl, rfl⟩, fun b => ⟨rfl, rfl⟩,
         fun b => ⟨rfl, rfl⟩, fun b => ⟨rfl, rfl⟩, fun b => ⟨rfl, rfl⟩⟩

/-- C2, witness for the amended theorem: from the concrete in-flight
state with one begun mutation, a deposit and a withdraw each begin a
second mutation and return their body outcome. -/
theorem C2_no_concurrency_guard_witness :
    ((PrivacyCashV2.depositOp (Except.ok { tx := "w1" })
        { isRunning := some true, mutationsBegun := 1 }).2.mutationsBegun
      = ({ isRunning := some true, mutationsBegun := 1 } : ClientState).mutationsBegun + 1
    ∧ (PrivacyCashV2.depositOp (Except.ok { tx := "w1" })
        { isRunning := some true, mutationsBegun := 1 }).1 = Except.ok { tx := "w1" })
  ∧ ((PrivacyCashV2.withdrawOp (Except.error (SdkError.failure "boom"))
        { isRunning := some true, mutationsBegun := 1 }).2.mutationsBegun
      = ({ isRunning := some true, mutationsBegun := 1 } : ClientState).mutationsBegun + 1
    ∧ (PrivacyCashV2.withdrawOp (Except.error (SdkError.failure "boom"))
        { isRunning := some true, mutationsBegun := 1 }).1
      = Except.error (SdkError.failure "boom")) :=
  ⟨(C2_no_concurrency_guard { isRunning := some true, mutationsBegun := 1 } rfl).1
      (Except.ok { tx := "w1" }),
   (C2_no_concurrency_guard { isRunning := some true, mutationsBegun := 1 } rfl).2.2.2.2.1
      (Except.error (SdkError.failure "boom"))⟩

/-- C8: once any public PrivacyCashV2 operation settles, whether its
body fulfilled or rejected, isOperationRunning() returns false: the
finally block resets the running flag on both outcome paths of all
eight operations. -/
theorem C8_running_flag_cleared_on_settle :
    ∀ st : ClientState,
      (∀ b : Except SdkError DepositTxResult,
          PrivacyCashV2.isOperationRunning (PrivacyCashV2.depositOp b st).2 = false)
    ∧ (∀ b : Except SdkError DepositV2Result,
          PrivacyCashV2.isOperationRunning (PrivacyCashV2.depositV2Op b st).2 = false)
    ∧ (∀ b : Except SdkError DepositTxResult,
          PrivacyCashV2.isOperationRunning (PrivacyCashV2.depositSPLOp b st).2 = false)
    ∧ (∀ b : Except SdkError DepositSPLV2Result,
          PrivacyCashV2.isOperationRunning (PrivacyCashV2.depositSPLV2Op b st).2 = false)
    ∧ (∀ b : Except SdkError WithdrawResult,
          PrivacyCashV2.isOperationRunning (PrivacyCashV2.withdrawOp b st).2 = false)
    ∧ (∀ b : Except SdkError WithdrawSPLResult,
          PrivacyCashV2.isOperationRunning (PrivacyCashV2.withdrawSPLOp b st).2 = false)
    ∧ (∀ b : Except SdkError SolBalanceResult,
          PrivacyCashV2.isOperationRunning (PrivacyCashV2.getPrivateBalanceOp b st).2 = false)
    ∧ (∀ b : Except SdkError SplBalanceResult,
          PrivacyCashV2.isOperationRunning (PrivacyCashV2.getPrivateBalanceSPLOp b st).2 = false) := by
  intro st
  exact ⟨fun b => rfl, fun b => rfl, fun b => rfl, fun b => rfl,
         fun b => rfl, fun b => rfl, fun b => rfl, fun b => rfl⟩

/-- C1: for every deposit-with-fee call (depositV2 with total T and fee
F, or depositSPLV2 with total T and fee F) that resolves, the deposited
amount returned in the result equals T - F and the fee amount returned
equals F; in particular a total of 1,000,000 with fee 20,000 yields a
deposit of 980,000 and a fee transfer of 20,000 to the fee recipient. -/
theorem C1_deposit_fee_split :
    (∀ (T F : Int) (fr : FeeRecipientParam) (r : DepositV2Result),
        PrivacyCashV2.depositV2run T F fr = some r →
          r.depositLamports = T - F ∧ r.feeLamports = F)
  ∧ (∀ (T F : Int) (fr : FeeRecipientParam) (r : DepositSPLV2Result),
        PrivacyCashV2.depositSPLV2run T F fr = some r →
          r.depositBaseUnits = T - F ∧ r.feeBaseUnits = F)
  ∧ (∀ p : Pubkey,
        PrivacyCashV2.depositV2run 1000000 20000 (.pk p)
          = some { depositLamports := 980000, feeLamports := 20000, feeRecipient := p }) := by
  refine ⟨?_, ?_, ?_⟩
  · intro T F fr r h
    unfold PrivacyCashV2.depositV2run at h
    cases hn : normalizeFeeRecipient fr with
    | none => rw [hn] at h; exact Option.noConfusion h
    | some p =>
      rw [hn] at h
      have hr : depositV2Inner T F p = r := Option.some.inj h
      subst hr
      exact ⟨rfl, rfl⟩
  · intro T F fr r h
    unfold PrivacyCashV2.depositSPLV2run at h
    cases hn : normalizeFeeRecipient fr with
    | none => rw [hn] at h; exact Option.noConfusion h
    | some p =>
      rw [hn] at h
      have hr : depositSPLV2Inner T F p = r := Option.some.inj h
      subst hr
      exact ⟨rfl, rfl⟩
  · intro p
    rfl

/-- C1, witness: the concrete deposit-with-fee split at total 1,000,000
and fee 20,000, for the native and the SPL variant. -/
theorem C1_deposit_fee_split_witness :
    ((depositV2Inner 1000000 20000 pkAllZero).depositLamports = 1000000 - 20000
      ∧ (depositV2Inner 1000000 20000 pkAllZero).feeLamports = 20000)
  ∧ ((depositSPLV2Inner 1000000 20000 pkAllZero).depositBaseUnits = 1000000 - 20000
      ∧ (depositSPLV2Inner 1000000 20000 pkAllZero).feeBaseUnits = 20000) :=
  ⟨C1_deposit_fee_split.1 1000000 20000 (.pk pkAllZero)
      (depositV2Inner 1000000 20000 pkAllZero) rfl,
   C1_deposit_fee_split.2.1 1000000 20000 (.pk pkAllZero)
      (depositSPLV2Inner 1000000 20000 pkAllZero) rfl⟩

/-- C4: for every depositV2 and depositSPLV2 call, the feeRecipient
argument is normalized to a single address value at the entry boundary:
passing the recipient as a base58 string and passing the PublicKey
decoded from that same string produce identical calls to the inner
deposit function and identical results. -/
theorem C4_fee_recipient_normalized_once :
    ∀ (s : String) (p : Pubkey), newPublicKey s = some p →
      normalizeFeeRecipient (.str s) = normalizeFeeRecipient (.pk p)
    ∧ (∀ T F : Int,
        PrivacyCashV2.depositV2run T F (.str s)
          = PrivacyCashV2.depositV2run T F (.pk p))
    ∧ (∀ T F : Int,
        PrivacyCashV2.depositSPLV2run T F (.str s)
          = PrivacyCashV2.depositSPLV2run T F (.pk p)) := by
  intro s p h
  have hn : normalizeFeeRecipient (.str s) = normalizeFeeRecipient (.pk p) := by
    show newPublicKey s = some p
    exact h
  refine ⟨hn, ?_, ?_⟩
  · intro T F
    unfold PrivacyCashV2.depositV2run
    rw [hn]
  · intro T F
    unfold PrivacyCashV2.depositSPLV2run
    rw [hn]

/-- C4, witness: the all-ones base58 string and the all-zero public key
it decodes to produce the same normalized recipient and the same
depositV2 run. -/
theorem C4_fee_recipient_normalized_once_witness :
    normalizeFeeRecipient (.str "11111111111111111111111111111111")
      = normalizeFeeRecipient (.pk pkAllZero)
  ∧ PrivacyCashV2.depositV2run 1000000 20000 (.str "11111111111111111111111111111111")
      = PrivacyCashV2.depositV2run 1000000 20000 (.pk pkAllZero) :=
  ⟨(C4_fee_recipient_normalized_once "11111111111111111111111111111111" pkAllZero
      (by decide)).1,
   (C4_fee_recipient_normalized_once "11111111111111111111111111111111" pkAllZero
      (by decide)).2.1 1000000 20000⟩

/-- C7: clearCache removes exactly the fetch-offset entry and the
encrypted-outputs entry keyed by the owner's public key and leaves
every other cache key unchanged; clearCacheSPL removes exactly the
corresponding two entries keyed by the owner's associated token address
and leaves every other cache key unchanged. -/
theorem C7_clearCache_frame :
    ∀ (owner ata : String) (st : Store),
      PrivacyCashV2.clearCache owner st (LSK_FETCH_OFFSET ++ localstorageKey owner) = none
    ∧ PrivacyCashV2.clearCache owner st (LSK_ENCRYPTED_OUTPUTS ++ localstorageKey owner) = none
    ∧ (∀ k : String, k ≠ LSK_FETCH_OFFSET ++ localstorageKey owner →
          k ≠ LSK_ENCRYPTED_OUTPUTS ++ localstorageKey owner →
          PrivacyCashV2.clearCache owner st k = st k)
    ∧ PrivacyCashV2.clearCacheSPL ata st (LSK_FETCH_OFFSET ++ localstorageKeySPL ata) = none
    ∧ PrivacyCashV2.clearCacheSPL ata st (LSK_ENCRYPTED_OUTPUTS ++ localstorageKeySPL ata) = none
    ∧ (∀ k : String, k ≠ LSK_FETCH_OFFSET ++ localstorageKeySPL ata →
          k ≠ LSK_ENCRYPTED_OUTPUTS ++ localstorageKeySPL ata →
          PrivacyCashV2.clearCacheSPL ata st k = st k) := by
  intro owner ata st
  refine ⟨?_, ?_, ?_, ?_, ?_, ?_⟩
  · simp [PrivacyCashV2.clearCache, removeItem]
  · simp [PrivacyCashV2.clearCache, removeItem]
  · intro k h1 h2
    simp [PrivacyCashV2.clearCache, removeItem, h1, h2]
  · simp [PrivacyCashV2.clearCacheSPL, removeItem]
  · simp [PrivacyCashV2.clearCacheSPL, removeItem]
  · intro k h1 h2
    simp [PrivacyCashV2.clearCacheSPL, removeItem, h1, h2]

/-- A concrete store holding one unrelated entry, for the clearCache
witness. -/
def storeExample : Store :=
  fun k => if k = "other" then some "v" else none

/-- C7, witness: on the concrete store, clearCache for owner ownerA
removes its fetch-offset key and leaves the unrelated key unchanged,
and clearCacheSPL for the token account ataA leaves it unchanged too. -/
theorem C7_clearCache_frame_witness :
    PrivacyCashV2.clearCache "ownerA" storeExample
      (LSK_FETCH_OFFSET ++ localstorageKey "ownerA") = none
  ∧ PrivacyCashV2.clearCache "ownerA" storeExample "other" = storeExample "other"
  ∧ PrivacyCashV2.clearCacheSPL "ataA" storeExample "other" = storeExample "other" :=
  ⟨(C7_clearCache_frame "ownerA" "ataA" storeExample).1,
   (C7_clearCache_frame "ownerA" "ataA" storeExample).2.2.1 "other"
      (by decide) (by decide),
   (C7_clearCache_frame "ownerA" "ataA" storeExample).2.2.2.2.2 "other"
      (by decide) (by decide)⟩

/-- Unfolding lemma for the owner-validation wrapper of the
constructor. -/
theorem constructorKeypair_eq (ed : List Nat → List Nat) (o : OwnerParam) :
    PrivacyCash.constructorKeypair ed o
      = match getSolanaKeypair ed o with
        | none => Except.error ownerErrorMessage
        | some kp => Except.ok kp := rfl

theorem getSolanaKeypair_bytes (ed : List Nat → List Nat) (bs : List Nat) :
    getSolanaKeypair ed (.bytes bs) = lengthCheckedKeypair ed bs := rfl

theorem getSolanaKeypair_numArray (ed : List Nat → List Nat) (ns : List Int) :
    getSolanaKeypair ed (.numArray ns)
      = lengthCheckedKeypair ed (ns.map (fun n => (n % 256).toNat)) := rfl

theorem getSolanaKeypair_str_decoded (ed : List Nat → List Nat)
    (s : String) (bs : List Nat) (h : bs58decode s = some bs) :
    getSolanaKeypair ed (.str s) = lengthCheckedKeypair ed bs := by
  simp only [getSolanaKeypair, h]

theorem getSolanaKeypair_str_fail (ed : List Nat → List Nat)
    (s : String) (h : bs58decode s = none) :
    getSolanaKeypair ed (.str s) = none := by
  simp only [getSolanaKeypair, h]

/-- Combined behavior of the length check and the library call: a
keypair results exactly for a valid 64-byte secret key; the 32-byte
branch of the length check is dead, since those arrays always make the
library throw. -/
theorem lengthCheckedKeypair_eq (ed : List Nat → List Nat) (bs : List Nat) :
    lengthCheckedKeypair ed bs
      = if bs.length = 64 ∧ bs.drop 32 = ed (bs.take 32)
        then some { secretKey := bs } else none := by
  unfold lengthCheckedKeypair Keypair.fromSecretKey
  by_cases h : bs.length = 64 ∧ bs.drop 32 = ed (bs.take 32)
  · rw [if_pos (Or.inr h.1), if_pos h]
  · rw [if_neg h]
    by_cases hl : bs.length = 32 ∨ bs.length = 64
    · rw [if_pos hl]
    · rw [if_neg hl]

/-- C9, counterexample: the claim that a 32-byte owner input yields a
keypair derived from those bytes is false: the external
Keypair.fromSecretKey throws on any input that is not a valid 64-byte
secret key, the catch in getSolanaKeypair turns the throw into null,
and the constructor throws the fixed message instead. The 32-byte
rejection depends only on the length, so the concrete stand-in
derivation is immaterial. -/
theorem C9_owner_param_counterexample :
    PrivacyCash.constructorKeypair ed25519Example (.bytes (List.replicate 32 0))
      = Except.error ownerErrorMessage
  ∧ ¬ (PrivacyCash.constructorKeypair ed25519Example (.bytes (List.replicate 32 0))
        = Except.ok { secretKey := List.replicate 32 0 }) := by
  refine ⟨rfl, fun h => Except.noConfusion h⟩

/-- C9, amended: for every Ed25519 derivation function of the external
library, the PrivacyCash constructor accepts a Keypair unchanged; a
byte array, a number array of byte values, or a base58-decodable
string whose (decoded) bytes are a valid 64-byte secret key - 64 bytes
whose trailing half is the public key derived from the leading half -
yields a keypair derived from those bytes; any other input (a wrong
length including exactly 32 bytes, a 64-byte array failing the
public-key validation, or a string that fails base58 decoding) makes
the constructor throw the fixed error message about the owner
parameter. -/
theorem C9_owner_param_validation :
    ∀ ed : List Nat → List Nat,
      (∀ kp : Keypair,
          PrivacyCash.constructorKeypair ed (.keypair kp) = Except.ok kp)
    ∧ (∀ bs : List Nat, bs.length = 64 → bs.drop 32 = ed (bs.take 32) →
          PrivacyCash.constructorKeypair ed (.bytes bs)
            = Except.ok { secretKey := bs })
    ∧ (∀ ns : List Int, (∀ n ∈ ns, 0 ≤ n ∧ n < 256) →
          (ns.map Int.toNat).length = 64 →
          (ns.map Int.toNat).drop 32 = ed ((ns.map Int.toNat).take 32) →
          PrivacyCash.constructorKeypair ed (.numArray ns)
            = Except.ok { secretKey := ns.map Int.toNat })
    ∧ (∀ (s : String) (bs : List Nat), bs58decode s = some bs →
          bs.length = 64 → bs.drop 32 = ed (bs.take 32) →
          PrivacyCash.constructorKeypair ed (.str s)
            = Except.ok { secretKey := bs })
    ∧ (∀ bs : List Nat, ¬ (bs.length = 64 ∧ bs.drop 32 = ed (bs.take 32)) →
          PrivacyCash.constructorKeypair ed (.bytes bs)
            = Except.error ownerErrorMessage)
    ∧ (∀ ns : List Int,
          ¬ ((ns.map (fun n => (n % 256).toNat)).length = 64
             ∧ (ns.map (fun n => (n % 256).toNat)).drop 32
                 = ed ((ns.map (fun n => (n % 256).toNat)).take 32)) →
          PrivacyCash.constructorKeypair ed (.numArray ns)
            = Except.error ownerErrorMessage)
    ∧ (∀ s : String, bs58decode s = none →
          PrivacyCash.constructorKeypair ed (.str s)
            = Except.error ownerErrorMessage)
    ∧ (∀ (s : String) (bs : List Nat), bs58decode s = some bs →
          ¬ (bs.length = 64 ∧ bs.drop 32 = ed (bs.take 32)) →
          PrivacyCash.constructorKeypair ed (.str s)
            = Except.error ownerErrorMessage) := by
  intro ed
  refine ⟨?_, ?_, ?_, ?_, ?_, ?_, ?_, ?_⟩
  · intro kp
    rfl
  · intro bs h64 hv
    rw [constructorKeypair_eq, getSolanaKeypair_bytes, lengthCheckedKeypair_eq,
      if_pos ⟨h64, hv⟩]
  · intro ns hin h64 hv
    have hmap : ns.map (fun n => (n % 256).toNat) = ns.map Int.toNat := by
      refine List.map_congr_left (fun n hn => ?_)
      rcases hin n hn with ⟨h0, h1⟩
      rw [Int.emod_eq_of_lt h0 h1]
    rw [constructorKeypair_eq, getSolanaKeypair_numArray, hmap,
      lengthCheckedKeypair_eq, if_pos ⟨h64, hv⟩]
  · intro s bs hdec h64 hv
    rw [constructorKeypair_eq, getSolanaKeypair_str_decoded ed s bs hdec,
      lengthCheckedKeypair_eq, if_pos ⟨h64, hv⟩]
  · intro bs h
    rw [constructorKeypair_eq, getSolanaKeypair_bytes, lengthCheckedKeypair_eq,
      if_neg h]
  · intro ns h
    rw [constructorKeypair_eq, getSolanaKeypair_numArray, lengthCheckedKeypair_eq,
      if_neg h]
  · intro s hdec
    rw [constructorKeypair_eq, getSolanaKeypair_str_fail ed s hdec]
  · intro s bs hdec h
    rw [constructorKeypair_eq, getSolanaKeypair_str_decoded ed s bs hdec,
      lengthCheckedKeypair_eq, if_neg h]

set_option maxRecDepth 8000 in
/-- C9, witness for the amended theorem, at the concrete stand-in
derivation (the identity on the seed, so a key is valid when its two
halves agree): a Keypair passes through; the valid 64-byte key with
equal halves is accepted from a byte array, from a number array and
from the 64-ones base58 string; a 3-byte array, a 64-byte array with
differing halves, a 1-entry number array, a non-base58 string and a
string decoding to one byte all make the constructor throw the fixed
message. -/
theorem C9_owner_param_validation_witness :
    PrivacyCash.constructorKeypair ed25519Example (.keypair { secretKey := [7] })
      = Except.ok { secretKey := [7] }
  ∧ PrivacyCash.constructorKeypair ed25519Example (.bytes (List.replicate 64 9))
      = Except.ok { secretKey := List.replicate 64 9 }
  ∧ PrivacyCash.constructorKeypair ed25519Example (.numArray (List.replicate 64 3))
      = Except.ok { secretKey := (List.replicate 64 (3 : Int)).map Int.toNat }
  ∧ PrivacyCash.constructorKeypair ed25519Example
        (.str "1111111111111111111111111111111111111111111111111111111111111111")
      = Except.ok { secretKey := List.replicate 64 0 }
  ∧ PrivacyCash.constructorKeypair ed25519Example (.bytes [1, 2, 3])
      = Except.error ownerErrorMessage
  ∧ PrivacyCash.constructorKeypair ed25519Example
        (.bytes (List.replicate 32 1 ++ List.replicate 32 2))
      = Except.error ownerErrorMessage
  ∧ PrivacyCash.constructorKeypair ed25519Example (.numArray [5])
      = Except.error ownerErrorMessage
  ∧ PrivacyCash.constructorKeypair ed25519Example (.str "0")
      = Except.error ownerErrorMessage
  ∧ PrivacyCash.constructorKeypair ed25519Example (.str "1")
      = Except.error ownerErrorMessage :=
  ⟨(C9_owner_param_validation ed25519Example).1 { secretKey := [7] },
   (C9_owner_param_validation ed25519Example).2.1 (List.replicate 64 9)
      (by decide) (by decide),
   (C9_owner_param_validation ed25519Example).2.2.1 (List.replicate 64 3)
      (by decide) (by decide) (by decide),
   (C9_owner_param_validation ed25519Example).2.2.2.1
      "1111111111111111111111111111111111111111111111111111111111111111"
      (List.replicate 64 0) (by decide) (by decide) (by decide),
   (C9_owner_param_validation ed25519Example).2.2.2.2.1 [1, 2, 3] (by decide),
   (C9_owner_param_validation ed25519Example).2.2.2.2.1
      (List.replicate 32 1 ++ List.replicate 32 2) (by decide),
   (C9_owner_param_validation ed25519Example).2.2.2.2.2.1 [5] (by decide),
   (C9_owner_param_validation ed25519Example).2.2.2.2.2.2.1 "0" (by decide),
   (C9_owner_param_validation ed25519Example).2.2.2.2.2.2.2 "1" [0]
      (by decide) (by decide)⟩

/-- newPublicKey rejects the empty string: it decodes to zero bytes,
not 32. -/
theorem newPublicKey_empty : newPublicKey "" = none := rfl

/-- Selection lemma: a non-empty (truthy) recipientAddress string goes
through the PublicKey constructor. -/
theorem selectWithdrawRecipient_some (ownPk : Pubkey) (s : String)
    (hs : ¬ (s = "")) :
    selectWithdrawRecipient ownPk (some s) = newPublicKey s := by
  simp only [selectWithdrawRecipient, if_neg hs]

/-- C10: for every withdraw or withdrawSPL call in which
recipientAddress is omitted, the recipient used for the withdrawal and
reported in the result is the client's own public key; when
recipientAddress is supplied as a string the PublicKey constructor
accepts, the recipient is the PublicKey decoded from that string. -/
theorem C10_withdraw_recipient_default :
    (∀ (ownPk : Pubkey) (pw : Bool) (amount fee : Int),
        PrivacyCashV2.withdrawRun ownPk none pw amount fee
          = some (withdrawInner ownPk pw amount fee)
      ∧ PrivacyCashV2.withdrawSPLRun ownPk none pw amount fee
          = some (withdrawSPLInner ownPk pw amount fee))
  ∧ (∀ (ownPk : Pubkey) (s : String) (p : Pubkey) (pw : Bool) (amount fee : Int),
        newPublicKey s = some p →
          PrivacyCashV2.withdrawRun ownPk (some s) pw amount fee
            = some (withdrawInner p pw amount fee)
        ∧ PrivacyCashV2.withdrawSPLRun ownPk (some s) pw amount fee
            = some (withdrawSPLInner p pw amount fee)) := by
  constructor
  · intro ownPk pw amount fee
    exact ⟨rfl, rfl⟩
  · intro ownPk s p pw amount fee h
    have hs : ¬ (s = "") := by
      intro he
      rw [he, newPublicKey_empty] at h
      exact Option.noConfusion h
    have hsel : selectWithdrawRecipient ownPk (some s) = some p := by
      rw [selectWithdrawRecipient_some ownPk s hs, h]
    constructor
    · simp only [PrivacyCashV2.withdrawRun, hsel]
    · simp only [PrivacyCashV2.withdrawSPLRun, hsel]

/-- C10, witness: with the all-zero own key, an omitted recipient
address selects the own key, and the all-ones base58 string selects the
all-zero key it decodes to. -/
theorem C10_withdraw_recipient_default_witness :
    (PrivacyCashV2.withdrawRun pkAllZero none false 5 1
        = some (withdrawInner pkAllZero false 5 1)
      ∧ PrivacyCashV2.withdrawSPLRun pkAllZero none false 5 1
        = some (withdrawSPLInner pkAllZero false 5 1))
  ∧ PrivacyCashV2.withdrawRun pkAllZero (some "11111111111111111111111111111111") false 5 1
      = some (withdrawInner pkAllZero false 5 1) :=
  ⟨C10_withdraw_recipient_default.1 pkAllZero false 5 1,
   (C10_withdraw_recipient_default.2 pkAllZero "11111111111111111111111111111111"
      pkAllZero false 5 1 (by decide)).1⟩
